import Mathlib

/-!
Verification of the rusty-ship Battleship game engine
(`src/services/battleship.rs`) against its specification.

The first part is a shallow embedding of the source file: the data model
(`Cell`, `CellState`, `ShipType`, `Ship`, `PlayerState`, `GameStateInner`,
`Event`) and the implemented operations (`register_player`, `place_ship`).
Asynchronous machinery is made explicit: the mutex-guarded `GameStateInner`
is passed as an explicit state value, the `events_tx` channel is modelled
as an append-only event log inside the state, and the UUID produced by
`register_player` is an explicit argument (it comes from an external
random generator).  A gRPC `Streaming<ShipPlacement>` is modelled as the
list of messages the client sent.  Errors (`tonic::Status`) are returned
alongside the (possibly mutated) state, because in the source an early
`return Err(..)` commits every mutation made before it.

The second part models `make_guess` and `get_game_state` from the
specification: in the source these handlers are `todo!()` stubs, so only
their declarations exist and the behaviour is taken from the spec text.
-/

/-- Grid side length, `BOARD_SIZE` in the source. -/
def BOARD_SIZE : Nat := 10

def CARRIER_LENGTH : Nat := 5
def BATTLESHIP_LENGTH : Nat := 4
def CRUISER_LENGTH : Nat := 3
def SUBMARINE_LENGTH : Nat := 3
def DESTROYER_LENGTH : Nat := 2

/-- `struct Cell { x: u32, y: u32 }` (u32 is modelled as `Nat`; the source
never performs arithmetic on coordinates). -/
structure Cell where
  x : Nat
  y : Nat
deriving DecidableEq, Repr

/-- `enum CellState { Empty, Occupied, Hit, Miss }`. -/
inductive CellState where
  | Empty
  | Occupied
  | Hit
  | Miss
deriving DecidableEq, Repr

/-- `enum ShipType { Carrier, Battleship, Cruiser, Submarine, Destroyer }`. -/
inductive ShipType where
  | Carrier
  | Battleship
  | Cruiser
  | Submarine
  | Destroyer
deriving DecidableEq, Repr

/-- `enum Ship`: a ship type together with the cells it occupies. -/
inductive Ship where
  | Carrier (cells : List Cell)
  | Battleship (cells : List Cell)
  | Cruiser (cells : List Cell)
  | Submarine (cells : List Cell)
  | Destroyer (cells : List Cell)
deriving DecidableEq, Repr

/-- `struct PlayerState { id, ships, guesses }`. -/
structure PlayerState where
  id : String
  ships : List Ship
  guesses : List (Nat × Nat)
deriving DecidableEq, Repr

/-- `PlayerState::new(id)`. -/
def PlayerState.new (id : String) : PlayerState :=
  { id := id, ships := [], guesses := [] }

/-- The protobuf `Player` message (only passed through to events). -/
structure Player where
  name : String
deriving DecidableEq, Repr

/-- The protobuf `Guess` message. -/
structure Guess where
  player_id : String
  x : Nat
  y : Nat
deriving DecidableEq, Repr

/-- The protobuf `ShipPlacement` message: `{ player_id, ship_type, cells }`. -/
structure ShipPlacement where
  player_id : String
  ship_type : String
  cells : List Cell
deriving DecidableEq, Repr

/-- `enum Event` from the source (PlayerJoined, PlayerLeft, PlayerTurn,
MakeGuess). -/
inductive Event where
  | PlayerJoined (p : Player)
  | PlayerLeft (p : Player)
  | PlayerTurn (p : Player)
  | MakeGuess (g : Guess)
deriving DecidableEq, Repr

/-- `tonic::Status`; the source only ever builds
`Status::invalid_argument(msg)`. -/
inductive Status where
  | invalidArgument (msg : String)
deriving DecidableEq, Repr

/-- A player's grid of ship positions, `[[Option<ShipType>; BOARD_SIZE]; BOARD_SIZE]`. -/
def PlayerBoard : Type := List (List (Option ShipType))

instance : DecidableEq PlayerBoard := by
  unfold PlayerBoard; infer_instance

instance : Repr PlayerBoard := by
  unfold PlayerBoard; infer_instance

/-- The all-`none` player board inserted for a newly seen player. -/
def emptyPlayerBoard : PlayerBoard :=
  List.replicate BOARD_SIZE (List.replicate BOARD_SIZE (none : Option ShipType))

/-- `struct GameStateInner`.  `HashMap`s are modelled as association lists
with overwrite-on-insert; note the struct has a single shared `board` and
no match-phase field.  `ship_positions` is declared in the source as one
10x10 array of `Option<ShipType>`, but `place_ship` reads and writes it
keyed by `player_id`, so it is embedded with the map type the code uses.
The `events_tx` channel is embedded as the list of sent events. -/
structure GameStateInner where
  board : List (List CellState)
  ships_remaining : List (ShipType × Nat)
  ship_positions : List (String × PlayerBoard)
  ship_cells : List (ShipType × List Cell)
  remaining_ships : List ShipType
  turn : Option Player
  events : List Event
deriving DecidableEq, Repr

/-- `HashMap::insert` on an association list: overwrite any old binding. -/
def mapInsert {α β : Type} [DecidableEq α] (m : List (α × β)) (k : α) (v : β) :
    List (α × β) :=
  (k, v) :: m.filter (fun kv => kv.1 ≠ k)

/-- The initial state built by `BattleShipService::new`. -/
def initialGameState : GameStateInner :=
  { board := List.replicate BOARD_SIZE (List.replicate BOARD_SIZE CellState.Empty)
  , ships_remaining := []
  , ship_positions := []
  , ship_cells := []
  , remaining_ships := []
  , turn := none
  , events := [] }

/-- The protobuf `PlayerInfo` reply of `register_player`. -/
structure PlayerInfo where
  id : String
deriving DecidableEq, Repr

/-- `register_player`: generates a fresh UUID (`freshId`, an input here since
it comes from the random generator), builds the `PlayerInfo` reply, locks the
state and sends a `PlayerJoined` event.  Nothing else in the game state is
touched: in particular no `PlayerState` is created or stored. -/
def register_player (gs : GameStateInner) (player : Player) (freshId : String) :
    GameStateInner × PlayerInfo :=
  ({ gs with events := gs.events ++ [Event.PlayerJoined player] }, { id := freshId })

/-- `remove_player`: sends a `PlayerLeft` event; no other state change. -/
def remove_player (gs : GameStateInner) (player : Player) : GameStateInner :=
  { gs with events := gs.events ++ [Event.PlayerLeft player] }

/-- The `match placement.ship_type.as_str()` parse in `place_ship`. -/
def parseShipType : String → Option ShipType
  | "carrier" => some ShipType.Carrier
  | "battleship" => some ShipType.Battleship
  | "cruiser" => some ShipType.Cruiser
  | "submarine" => some ShipType.Submarine
  | "destroyer" => some ShipType.Destroyer
  | _ => none

/-- The catalog length chosen by the `match ship_type` at the end of the
placement loop (the source's `ShipType::Battles` arm is its `Battleship`
case). -/
def shipLength : ShipType → Nat
  | ShipType.Carrier => CARRIER_LENGTH
  | ShipType.Battleship => BATTLESHIP_LENGTH
  | ShipType.Cruiser => CRUISER_LENGTH
  | ShipType.Submarine => SUBMARINE_LENGTH
  | ShipType.Destroyer => DESTROYER_LENGTH

/-- The `unwrap_or_else` initialisation block in `place_ship`, run when
`ship_positions` has no entry for `player_id`: reset each catalog count to 1,
push all five types onto `remaining_ships`, insert an empty board for the
player and reset `ship_cells`.  (The block also yields a
`PlayerState::new(player_id)` value, which the rest of the function never
uses observably: the `(length, cells)` binding derived from it is dead.) -/
def initNewPlayer (gs : GameStateInner) (player_id : String) : GameStateInner :=
  { gs with
    ships_remaining :=
      mapInsert (mapInsert (mapInsert (mapInsert (mapInsert gs.ships_remaining
        ShipType.Carrier 1) ShipType.Battleship 1) ShipType.Cruiser 1)
        ShipType.Submarine 1) ShipType.Destroyer 1
  , remaining_ships :=
      gs.remaining_ships ++
        [ShipType.Carrier, ShipType.Battleship, ShipType.Cruiser,
         ShipType.Submarine, ShipType.Destroyer]
  , ship_positions := mapInsert gs.ship_positions player_id emptyPlayerBoard
  , ship_cells :=
      mapInsert (mapInsert (mapInsert (mapInsert (mapInsert gs.ship_cells
        ShipType.Carrier []) ShipType.Battleship []) ShipType.Cruiser [])
        ShipType.Submarine []) ShipType.Destroyer [] }

/-- One iteration of the `for placement in stream` loop: parse the ship-type
string (else `Invalid ship type`), check the type is still in
`remaining_ships` (else `All ships of this type are already placed`).  The
loop body then binds `(length, cells)` and does nothing with them — no cell
is marked, no ship recorded, nothing removed from `remaining_ships` — so a
successful iteration returns the state unchanged. -/
def placeOne (gs : GameStateInner) (p : ShipPlacement) :
    Except Status GameStateInner :=
  match parseShipType p.ship_type with
  | none => Except.error (Status.invalidArgument "Invalid ship type")
  | some st =>
    if gs.remaining_ships.contains st then
      Except.ok gs
    else
      Except.error (Status.invalidArgument "All ships of this type are already placed")

/-- The placement loop over the remaining stream messages.  An `Err` return
in the source keeps every mutation made before it (the mutex guard is simply
dropped), so the failing case returns the current state together with the
error. -/
def placeLoop : GameStateInner → List ShipPlacement →
    GameStateInner × Option Status
  | gs, [] => (gs, none)
  | gs, p :: rest =>
    match placeOne gs p with
    | Except.error e => (gs, some e)
    | Except.ok gs1 => placeLoop gs1 rest

/-- `place_ship`: pop the first stream message (an empty stream fails with
`No ship placement in stream` before the state lock is taken), use only its
`player_id`, lazily initialise the per-player structures, then run the
validation loop over the remaining messages.  Returns the final state and
`none` on success or `some status` on failure. -/
def place_ship (gs : GameStateInner) (stream : List ShipPlacement) :
    GameStateInner × Option Status :=
  match stream with
  | [] => (gs, some (Status.invalidArgument "No ship placement in stream"))
  | first :: rest =>
    let gs1 :=
      if (gs.ship_positions.lookup first.player_id).isSome then gs
      else initNewPlayer gs first.player_id
    placeLoop gs1 rest

/-- Number of `Occupied` cells on a board. -/
def countOccupied (b : List (List CellState)) : Nat :=
  (b.map (fun row => row.countP (fun c => c = CellState.Occupied))).sum

/-- A full-fleet placement stream for player `pid`: a leading message (the
source consumes the first stream element only for its `player_id`) followed
by one straight, in-bounds placement of each catalog type. -/
def fleetStream (pid : String) : List ShipPlacement :=
  [ { player_id := pid, ship_type := "carrier"
    , cells := [⟨0, 0⟩, ⟨0, 1⟩, ⟨0, 2⟩, ⟨0, 3⟩, ⟨0, 4⟩] }
  , { player_id := pid, ship_type := "carrier"
    , cells := [⟨0, 0⟩, ⟨0, 1⟩, ⟨0, 2⟩, ⟨0, 3⟩, ⟨0, 4⟩] }
  , { player_id := pid, ship_type := "battleship"
    , cells := [⟨1, 0⟩, ⟨1, 1⟩, ⟨1, 2⟩, ⟨1, 3⟩] }
  , { player_id := pid, ship_type := "cruiser"
    , cells := [⟨2, 0⟩, ⟨2, 1⟩, ⟨2, 2⟩] }
  , { player_id := pid, ship_type := "submarine"
    , cells := [⟨3, 0⟩, ⟨3, 1⟩, ⟨3, 2⟩] }
  , { player_id := pid, ship_type := "destroyer"
    , cells := [⟨4, 0⟩, ⟨4, 1⟩] } ]

/-- A stream message with a ship-type string outside the catalog. -/
def badTypeMsg : ShipPlacement :=
  { player_id := "p1", ship_type := "frigate", cells := [] }

/-- A stream message placing the carrier. -/
def carrierMsg : ShipPlacement :=
  { player_id := "p1", ship_type := "carrier"
  , cells := [⟨0, 0⟩, ⟨0, 1⟩, ⟨0, 2⟩, ⟨0, 3⟩, ⟨0, 4⟩] }

/-- Claim C1: the spec says a completed fleet leaves 17 Occupied cells and
that `place_ship` marks each placed cell Occupied.  The code accepts a
full-fleet placement stream without error, yet marks no cell at all: the
board has 0 Occupied cells after fleet completion, not 17. -/
theorem place_ship_accepts_fleet_but_marks_no_cells :
    (place_ship initialGameState (fleetStream "p1")).2 = none ∧
    countOccupied (place_ship initialGameState (fleetStream "p1")).1.board = 0 := by
  constructor <;> rfl

/-- First placement call of the C2 scenario: player p1 places the destroyer. -/
def destroyerCall1 : List ShipPlacement :=
  [ { player_id := "p1", ship_type := "destroyer", cells := [⟨0, 0⟩, ⟨0, 1⟩] }
  , { player_id := "p1", ship_type := "destroyer", cells := [⟨0, 0⟩, ⟨0, 1⟩] } ]

/-- Second placement call of the C2 scenario: p1 places a destroyer again. -/
def destroyerCall2 : List ShipPlacement :=
  [ { player_id := "p1", ship_type := "destroyer", cells := [⟨5, 5⟩, ⟨5, 6⟩] }
  , { player_id := "p1", ship_type := "destroyer", cells := [⟨5, 5⟩, ⟨5, 6⟩] } ]

/-- Claim C2: the spec says a second placement of an already-placed type
fails with DuplicateShipType.  The code never removes a type from
`remaining_ships` after a placement, so the duplicate check never fires: a
second `place_ship` call placing the destroyer again succeeds. -/
theorem place_ship_duplicate_type_accepted :
    (place_ship initialGameState destroyerCall1).2 = none ∧
    (place_ship (place_ship initialGameState destroyerCall1).1 destroyerCall2).2 = none := by
  constructor <;> rfl

/-- Claim C3: the spec says cells (0,0),(0,2) for a 2-length ship fail with
NotContiguous.  The code has no contiguity check at all and accepts the
gapped placement. -/
theorem place_ship_gapped_placement_accepted :
    (place_ship initialGameState
      [ { player_id := "p1", ship_type := "destroyer", cells := [⟨0, 0⟩, ⟨0, 2⟩] }
      , { player_id := "p1", ship_type := "destroyer", cells := [⟨0, 0⟩, ⟨0, 2⟩] }
      ]).2 = none := by
  rfl

/-- Claim C4: the placement loop handles each message independently and
atomically.  A message that fails validation returns with the state exactly
as it was before that message (and aborts the stream), while a successful
message hands its committed state to the rest of the loop — earlier commits
are never rolled back. -/
theorem place_ship_stream_atomic :
    (∀ (gs : GameStateInner) (p : ShipPlacement) (rest : List ShipPlacement)
        (e : Status),
        placeOne gs p = Except.error e → placeLoop gs (p :: rest) = (gs, some e)) ∧
    (∀ (gs gs1 : GameStateInner) (p : ShipPlacement) (rest : List ShipPlacement),
        placeOne gs p = Except.ok gs1 → placeLoop gs (p :: rest) = placeLoop gs1 rest) := by
  constructor
  · intro gs p rest e h
    simp [placeLoop, h]
  · intro gs gs1 p rest h
    simp [placeLoop, h]

/-- Witness for C4 at concrete inputs: an invalid ship type aborts the loop
with the state untouched, and a valid carrier message lets the loop continue
on the committed state. -/
theorem place_ship_stream_atomic_witness :
    placeLoop initialGameState [badTypeMsg] =
      (initialGameState, some (Status.invalidArgument "Invalid ship type")) ∧
    placeLoop (initNewPlayer initialGameState "p1") (carrierMsg :: [badTypeMsg]) =
      placeLoop (initNewPlayer initialGameState "p1") [badTypeMsg] :=
  ⟨place_ship_stream_atomic.1 initialGameState badTypeMsg [] _ rfl,
   place_ship_stream_atomic.2 (initNewPlayer initialGameState "p1")
     (initNewPlayer initialGameState "p1") carrierMsg [badTypeMsg] rfl⟩

/-- Claim C8: the spec says `register_player` creates a PlayerState for the
fresh identifier in the game state.  The code only returns the identifier
and appends a PlayerJoined event: every other component of the game state —
in particular the player-keyed `ship_positions` map, the only per-player
store — is left exactly as it was, so no PlayerState is created anywhere. -/
theorem register_player_creates_no_player_state
    (gs : GameStateInner) (player : Player) (freshId : String) :
    (register_player gs player freshId).2.id = freshId ∧
    (register_player gs player freshId).1.ship_positions = gs.ship_positions ∧
    (register_player gs player freshId).1.board = gs.board ∧
    (register_player gs player freshId).1.ships_remaining = gs.ships_remaining ∧
    (register_player gs player freshId).1.ship_cells = gs.ship_cells ∧
    (register_player gs player freshId).1.remaining_ships = gs.remaining_ships ∧
    (register_player gs player freshId).1.turn = gs.turn ∧
    (register_player gs player freshId).1.events =
      gs.events ++ [Event.PlayerJoined player] :=
  ⟨rfl, rfl, rfl, rfl, rfl, rfl, rfl, rfl⟩

/-- Claim C9: the spec says that when both players have all five ship types
placed the phase advances Setup to InProgress and the whose-turn pointer is
assigned.  `GameStateInner` has no phase field at all, and after both
players complete their fleets through `place_ship` (both calls succeed) the
`turn` pointer is still `none`: no transition of any kind happens. -/
theorem place_ship_no_phase_transition :
    (place_ship (place_ship initialGameState (fleetStream "p1")).1
      (fleetStream "p2")).2 = none ∧
    (place_ship (place_ship initialGameState (fleetStream "p1")).1
      (fleetStream "p2")).1.turn = none := by
  constructor <;> rfl

/-- Claim C10: a `place_ship` call with an empty input stream fails with
invalid-argument "No ship placement in stream" (raised before the state
lock is even taken) and leaves the game state completely unchanged. -/
theorem place_ship_empty_stream (gs : GameStateInner) :
    place_ship gs [] =
      (gs, some (Status.invalidArgument "No ship placement in stream")) :=
  rfl

/-- Modelled from the spec: the source's `make_guess` and `get_game_state`
handlers are `todo!()` stubs, so the turn-and-guess engine and the state
view are modelled from spec sections 3, 4.3 and 6.  The GameState there has
exactly two PlayerState slots; they are indexed here by a two-element type. -/
inductive PlayerIx where
  | A
  | B
deriving DecidableEq, Repr

/-- The opponent of a player slot. -/
def PlayerIx.other : PlayerIx → PlayerIx
  | PlayerIx.A => PlayerIx.B
  | PlayerIx.B => PlayerIx.A

/-- Modelled from the spec: a PlayerState for the guess engine — the fleet
cells, the Hit and Miss marks recorded on this player's own board by the
opponent's guesses, and the log of guesses this player has made. -/
structure SpecPlayer where
  fleet : List Cell
  hitsTaken : List Cell
  missesTaken : List Cell
  guesses : List Cell
deriving DecidableEq, Repr

/-- Modelled from the spec: the CellState of a cell of a player's board,
derived from the fleet and the recorded hit and miss marks. -/
def cellStateAt (ps : SpecPlayer) (c : Cell) : CellState :=
  if ps.hitsTaken.contains c then CellState.Hit
  else if ps.missesTaken.contains c then CellState.Miss
  else if ps.fleet.contains c then CellState.Occupied
  else CellState.Empty

/-- Modelled from the spec: the match phase Setup, InProgress or
Finished with a winner. -/
inductive SpecPhase where
  | Setup
  | InProgress
  | Finished (winner : PlayerIx)
deriving DecidableEq, Repr

/-- Modelled from the spec: the GameState of the guess engine — two
PlayerState slots, the whose-turn pointer (or none before the match
starts) and the match phase. -/
structure SpecGameState where
  pA : SpecPlayer
  pB : SpecPlayer
  turn : Option PlayerIx
  phase : SpecPhase
deriving DecidableEq, Repr

/-- Look up a player slot. -/
def SpecGameState.player : SpecGameState → PlayerIx → SpecPlayer
  | s, PlayerIx.A => s.pA
  | s, PlayerIx.B => s.pB

/-- Replace a player slot. -/
def SpecGameState.setPlayer : SpecGameState → PlayerIx → SpecPlayer → SpecGameState
  | s, PlayerIx.A, v => { s with pA := v }
  | s, PlayerIx.B, v => { s with pB := v }

/-- Modelled from the spec: the error taxonomy of `make_guess`
(sections 4.3 and 7). -/
inductive GuessError where
  | NotInProgress
  | NotYourTurn
  | OutOfBounds
  | DuplicateGuess
  | GameAlreadyFinished
deriving DecidableEq, Repr

/-- The outcome of a resolved guess. -/
inductive Outcome where
  | Hit
  | Miss
deriving DecidableEq, Repr

/-- Modelled from the spec: the guess outcome — Hit when the opponent's
board cell is Occupied, Miss otherwise. -/
def guessOutcome (s : SpecGameState) (p : PlayerIx) (c : Cell) : Outcome :=
  if cellStateAt (s.player p.other) c = CellState.Occupied then Outcome.Hit
  else Outcome.Miss

/-- Record a guess outcome on the guessed player's board: mark the cell Hit
or Miss. -/
def applyOutcome (ps : SpecPlayer) (c : Cell) (out : Outcome) : SpecPlayer :=
  match out with
  | Outcome.Hit => { ps with hitsTaken := c :: ps.hitsTaken }
  | Outcome.Miss => { ps with missesTaken := c :: ps.missesTaken }

/-- Modelled from the spec: the win condition — every cell occupied by the
fleet is marked Hit. -/
def allSunk (ps : SpecPlayer) : Bool :=
  ps.fleet.all (fun d => ps.hitsTaken.contains d)

/-- Commit a resolved guess: mark the opponent's board cell and append the
coordinate to the guesser's guess log. -/
def commitGuess (s : SpecGameState) (p : PlayerIx) (c : Cell) : SpecGameState :=
  (s.setPlayer p.other
    (applyOutcome (s.player p.other) c (guessOutcome s p c))).setPlayer p
    { s.player p with guesses := c :: (s.player p).guesses }

/-- Modelled from the spec: after resolving, check whether the opponent's
fleet is fully Hit; if so the phase becomes Finished with the guesser as
winner and the turn is not advanced, otherwise the turn passes to the
opponent. -/
def resolveGuess (s : SpecGameState) (p : PlayerIx) (c : Cell) :
    SpecGameState × Outcome :=
  if allSunk ((commitGuess s p c).player p.other) then
    ({ commitGuess s p c with phase := SpecPhase.Finished p }, guessOutcome s p c)
  else
    ({ commitGuess s p c with turn := some p.other }, guessOutcome s p c)

/-- Modelled from the spec: `make_guess(player_id, coordinate)` — rejects a
guess in a finished game (GameAlreadyFinished), before the match starts
(NotInProgress), out of turn (NotYourTurn), outside the grid (OutOfBounds)
or at a coordinate already guessed by this player (DuplicateGuess);
otherwise resolves the guess against the opponent's board. -/
def make_guess (s : SpecGameState) (p : PlayerIx) (c : Cell) :
    Except GuessError (SpecGameState × Outcome) :=
  match s.phase with
  | SpecPhase.Finished _ => Except.error GuessError.GameAlreadyFinished
  | SpecPhase.Setup => Except.error GuessError.NotInProgress
  | SpecPhase.InProgress =>
    if s.turn ≠ some p then Except.error GuessError.NotYourTurn
    else if ¬ (c.x < BOARD_SIZE ∧ c.y < BOARD_SIZE) then
      Except.error GuessError.OutOfBounds
    else if (s.player p).guesses.contains c then
      Except.error GuessError.DuplicateGuess
    else Except.ok (resolveGuess s p c)

/-- Modelled from the spec: redaction of an opponent board cell for the
state view — Occupied is shown as Empty, everything else as is. -/
def redactCell : CellState → CellState
  | CellState.Occupied => CellState.Empty
  | st => st

/-- Modelled from the spec: the `GameStateView` returned by
`get_game_state` — the requesting player's own board, the opponent board
with only Hit, Miss or Empty visible, the phase and the turn. -/
structure GameStateView where
  own : Cell → CellState
  opp : Cell → CellState
  phase : SpecPhase
  turn : Option PlayerIx

/-- Modelled from the spec: `get_game_state(player_id)` — own board shown
in full, opponent board redacted cell by cell. -/
def get_game_state (s : SpecGameState) (p : PlayerIx) : GameStateView :=
  { own := cellStateAt (s.player p)
  , opp := fun c => redactCell (cellStateAt (s.player p.other) c)
  , phase := s.phase
  , turn := s.turn }

theorem other_ne (p : PlayerIx) : p.other ≠ p := by
  cases p <;> decide

theorem player_setPlayer_same (s : SpecGameState) (i : PlayerIx) (v : SpecPlayer) :
    (s.setPlayer i v).player i = v := by
  cases i <;> rfl

theorem player_setPlayer_ne (s : SpecGameState) (i j : PlayerIx) (v : SpecPlayer)
    (h : i ≠ j) : (s.setPlayer i v).player j = s.player j := by
  cases i <;> cases j <;> first | rfl | exact absurd rfl h

theorem phase_setPlayer (s : SpecGameState) (i : PlayerIx) (v : SpecPlayer) :
    (s.setPlayer i v).phase = s.phase := by
  cases i <;> rfl

theorem turn_setPlayer (s : SpecGameState) (i : PlayerIx) (v : SpecPlayer) :
    (s.setPlayer i v).turn = s.turn := by
  cases i <;> rfl

theorem phase_commitGuess (s : SpecGameState) (p : PlayerIx) (c : Cell) :
    (commitGuess s p c).phase = s.phase := by
  unfold commitGuess
  rw [phase_setPlayer, phase_setPlayer]

theorem turn_commitGuess (s : SpecGameState) (p : PlayerIx) (c : Cell) :
    (commitGuess s p c).turn = s.turn := by
  unfold commitGuess
  rw [turn_setPlayer, turn_setPlayer]

theorem player_update_turn (s : SpecGameState) (v : Option PlayerIx) (j : PlayerIx) :
    ({ s with turn := v } : SpecGameState).player j = s.player j := by
  cases j <;> rfl

theorem player_update_phase (s : SpecGameState) (v : SpecPhase) (j : PlayerIx) :
    ({ s with phase := v } : SpecGameState).player j = s.player j := by
  cases j <;> rfl

theorem make_guess_finished (s : SpecGameState) (p : PlayerIx) (c : Cell)
    (w : PlayerIx) (h : s.phase = SpecPhase.Finished w) :
    make_guess s p c = Except.error GuessError.GameAlreadyFinished := by
  unfold make_guess
  rw [h]

theorem make_guess_setup (s : SpecGameState) (p : PlayerIx) (c : Cell)
    (h : s.phase = SpecPhase.Setup) :
    make_guess s p c = Except.error GuessError.NotInProgress := by
  unfold make_guess
  rw [h]

theorem make_guess_inprog (s : SpecGameState) (p : PlayerIx) (c : Cell)
    (h : s.phase = SpecPhase.InProgress) :
    make_guess s p c =
      (if s.turn ≠ some p then Except.error GuessError.NotYourTurn
       else if ¬ (c.x < BOARD_SIZE ∧ c.y < BOARD_SIZE) then
         Except.error GuessError.OutOfBounds
       else if (s.player p).guesses.contains c then
         Except.error GuessError.DuplicateGuess
       else Except.ok (resolveGuess s p c)) := by
  unfold make_guess
  rw [h]

theorem make_guess_ok_split (s s' : SpecGameState) (p : PlayerIx) (c : Cell)
    (out : Outcome) (hok : make_guess s p c = Except.ok (s', out)) :
    s.phase = SpecPhase.InProgress ∧ s.turn = some p ∧
    ((allSunk ((commitGuess s p c).player p.other) = true ∧
        s' = { commitGuess s p c with phase := SpecPhase.Finished p }) ∨
     (allSunk ((commitGuess s p c).player p.other) = false ∧
        s' = { commitGuess s p c with turn := some p.other })) := by
  have hph : s.phase = SpecPhase.InProgress := by
    cases hph : s.phase with
    | Setup => rw [make_guess_setup s p c hph] at hok; simp at hok
    | InProgress => rfl
    | Finished w => rw [make_guess_finished s p c w hph] at hok; simp at hok
  rw [make_guess_inprog s p c hph] at hok
  by_cases h1 : s.turn = some p
  · refine ⟨hph, h1, ?_⟩
    rw [if_neg (not_not_intro h1)] at hok
    by_cases h2 : c.x < BOARD_SIZE ∧ c.y < BOARD_SIZE
    · rw [if_neg (not_not_intro h2)] at hok
      by_cases h3 : (s.player p).guesses.contains c = true
      · rw [if_pos h3] at hok
        simp at hok
      · rw [if_neg h3] at hok
        have hr : resolveGuess s p c = (s', out) := by
          injection hok with hr
        unfold resolveGuess at hr
        by_cases hw : allSunk ((commitGuess s p c).player p.other) = true
        · rw [if_pos hw] at hr
          injection hr with hs ho
          exact Or.inl ⟨hw, hs.symm⟩
        · rw [if_neg hw] at hr
          injection hr with hs ho
          simp only [Bool.not_eq_true] at hw
          exact Or.inr ⟨hw, hs.symm⟩
    · rw [if_pos h2] at hok
      simp at hok
  · rw [if_pos h1] at hok
    simp at hok

/-- Claim C5 (spec-modelled): in the InProgress phase accepted guesses
strictly alternate.  After a non-winning accepted guess by player `p` the
turn holder is the opponent, a further guess by `p` is rejected with
NotYourTurn, and any accepted guess in the new state is the opponent's. -/
theorem make_guess_turn_alternation
    (s s' : SpecGameState) (p : PlayerIx) (c : Cell) (out : Outcome)
    (hok : make_guess s p c = Except.ok (s', out))
    (hprog : s'.phase = SpecPhase.InProgress) :
    s'.turn = some p.other ∧
    (∀ c', make_guess s' p c' = Except.error GuessError.NotYourTurn) ∧
    (∀ q c' r, make_guess s' q c' = Except.ok r → q = p.other) := by
  obtain ⟨hph, h1, hcase⟩ := make_guess_ok_split s s' p c out hok
  cases hcase with
  | inl hwin =>
    exfalso
    rw [hwin.2] at hprog
    simp at hprog
  | inr hmiss =>
    have hturn : s'.turn = some p.other := by rw [hmiss.2]
    refine ⟨hturn, ?_, ?_⟩
    · intro c'
      have hcond : s'.turn ≠ some p := by
        rw [hturn]
        intro hcontra
        exact other_ne p (Option.some.inj hcontra)
      rw [make_guess_inprog s' p c' hprog, if_pos hcond]
    · intro q c' r h
      by_cases hq : s'.turn = some q
      · rw [hturn] at hq
        exact (Option.some.inj hq).symm
      · rw [make_guess_inprog s' q c' hprog, if_pos hq] at h
        simp at h

/-- Claim C6 (spec-modelled): a guess that leaves every cell of the
opponent's fleet Hit finishes the game with the guesser as winner, does not
advance the turn, and every subsequent guess by anyone is rejected with
GameAlreadyFinished. -/
theorem make_guess_win_finishes
    (s s' : SpecGameState) (p : PlayerIx) (c : Cell) (out : Outcome)
    (hok : make_guess s p c = Except.ok (s', out))
    (hall : allSunk (s'.player p.other) = true) :
    s'.phase = SpecPhase.Finished p ∧ s'.turn = s.turn ∧
    (∀ q c', make_guess s' q c' = Except.error GuessError.GameAlreadyFinished) := by
  obtain ⟨hph, h1, hcase⟩ := make_guess_ok_split s s' p c out hok
  cases hcase with
  | inl hwin =>
    have hfin : s'.phase = SpecPhase.Finished p := by rw [hwin.2]
    refine ⟨hfin, ?_, ?_⟩
    · rw [hwin.2]
      exact turn_commitGuess s p c
    · intro q c'
      exact make_guess_finished s' q c' p hfin
  | inr hmiss =>
    exfalso
    rw [hmiss.2, player_update_turn] at hall
    rw [hmiss.1] at hall
    simp at hall

/-- Claim C7 (spec-modelled): the opponent-board portion of the view
returned by `get_game_state` never shows a cell as Occupied — only Empty,
Hit or Miss are visible for the opponent board. -/
theorem get_game_state_redacts_opponent (s : SpecGameState) (p : PlayerIx)
    (c : Cell) :
    (get_game_state s p).opp c = CellState.Empty ∨
    (get_game_state s p).opp c = CellState.Hit ∨
    (get_game_state s p).opp c = CellState.Miss := by
  cases h : cellStateAt (s.player p.other) c <;>
    simp [get_game_state, redactCell, h]

/-- A concrete in-progress game: player A to move, small fleets. -/
def c5pre : SpecGameState :=
  { pA := { fleet := [⟨0, 0⟩], hitsTaken := [], missesTaken := [], guesses := [] }
  , pB := { fleet := [⟨5, 5⟩, ⟨5, 6⟩], hitsTaken := [], missesTaken := [], guesses := [] }
  , turn := some PlayerIx.A
  , phase := SpecPhase.InProgress }

/-- The state after player A's non-winning miss at (9,9) in `c5pre`. -/
def c5post : SpecGameState :=
  { pA := { fleet := [⟨0, 0⟩], hitsTaken := [], missesTaken := [], guesses := [⟨9, 9⟩] }
  , pB := { fleet := [⟨5, 5⟩, ⟨5, 6⟩], hitsTaken := [], missesTaken := [⟨9, 9⟩], guesses := [] }
  , turn := some PlayerIx.B
  , phase := SpecPhase.InProgress }

/-- Witness for C5 at a concrete game: after A's accepted non-winning
guess the turn holder is B and a further guess by A is NotYourTurn. -/
theorem make_guess_turn_alternation_witness :
    c5post.turn = some PlayerIx.B ∧
    make_guess c5post PlayerIx.A ⟨0, 0⟩ = Except.error GuessError.NotYourTurn :=
  ⟨(make_guess_turn_alternation c5pre c5post PlayerIx.A ⟨9, 9⟩ Outcome.Miss
      rfl rfl).1,
   (make_guess_turn_alternation c5pre c5post PlayerIx.A ⟨9, 9⟩ Outcome.Miss
      rfl rfl).2.1 ⟨0, 0⟩⟩

/-- A concrete in-progress game in which player B's whole fleet is the
single cell (2,3) and player A is to move. -/
def c6pre : SpecGameState :=
  { pA := { fleet := [⟨0, 0⟩], hitsTaken := [], missesTaken := [], guesses := [] }
  , pB := { fleet := [⟨2, 3⟩], hitsTaken := [], missesTaken := [], guesses := [] }
  , turn := some PlayerIx.A
  , phase := SpecPhase.InProgress }

/-- The state after player A's winning hit at (2,3) in `c6pre`. -/
def c6post : SpecGameState :=
  { pA := { fleet := [⟨0, 0⟩], hitsTaken := [], missesTaken := [], guesses := [⟨2, 3⟩] }
  , pB := { fleet := [⟨2, 3⟩], hitsTaken := [⟨2, 3⟩], missesTaken := [], guesses := [] }
  , turn := some PlayerIx.A
  , phase := SpecPhase.Finished PlayerIx.A }

/-- Witness for C6 at a concrete game: A's guess sinks B's whole fleet, the
phase is Finished with winner A, and a subsequent guess by B is rejected
with GameAlreadyFinished. -/
theorem make_guess_win_finishes_witness :
    c6post.phase = SpecPhase.Finished PlayerIx.A ∧
    make_guess c6post PlayerIx.B ⟨0, 0⟩ =
      Except.error GuessError.GameAlreadyFinished :=
  ⟨(make_guess_win_finishes c6pre c6post PlayerIx.A ⟨2, 3⟩ Outcome.Hit
      rfl rfl).1,
   (make_guess_win_finishes c6pre c6post PlayerIx.A ⟨2, 3⟩ Outcome.Hit
      rfl rfl).2.2 PlayerIx.B ⟨0, 0⟩⟩
